import Mathlib

/-!
Shallow embedding of the data-fair/catalog-gcloud-storage plugin
(src/lib/prepare.ts and src/lib/imports.ts, re-exported through src/index.ts).

The three operations are pure functions here; the external effects (the
Google Cloud Storage client construction, the `getFiles` listing call, the
`getMetadata` call and the download stream) are passed in explicitly as
dependency records, so a theorem quantifying over all dependencies captures
"no network call is made".  JavaScript string truthiness (`undefined` and
the empty string are falsy) is modelled by `truthyOpt` on `Option String`.
-/

namespace GCloudStorage

/-! ### String helpers

Structural re-implementations of the Node `path` functions and JS string
operations used by the source, working on the character list so that the
kernel can evaluate them on concrete inputs. -/

/-- Split a character list at every occurrence of `c` (JS `s.split(c)`:
always at least one piece, empty pieces kept). -/
def splitOnChar (c : Char) : List Char → List (List Char)
  | [] => [[]]
  | x :: xs =>
    let r := splitOnChar c xs
    if x = c then [] :: r
    else
      match r with
      | [] => [[x]]
      | y :: ys => (x :: y) :: ys

/-- JS `s.substring(s.lastIndexOf('/') + 1)`: everything after the last
slash (the whole string when there is no slash). -/
def afterLastSlash (s : String) : String :=
  ⟨(splitOnChar '/' s.data).getLastD []⟩

/-- Drop trailing `'/'` characters. -/
def dropTrailingSlashes (s : String) : String :=
  ⟨(s.data.reverse.dropWhile (fun ch => ch = '/')).reverse⟩

/-- Node `path.basename(p)`: trailing slashes ignored, then the part after
the last slash. -/
def basename (p : String) : String :=
  afterLastSlash (dropTrailingSlashes p)

/-- Node `path.extname(p)`: the extension of the basename, from the last
dot on; empty when there is no dot or the only dot is the leading one
(hidden files), and empty on the special basename `".."`. -/
def extname (p : String) : String :=
  let b := basename p
  if b = ".." then ""
  else
    match splitOnChar '.' b.data with
    | [] => ""
    | [_] => ""
    | [[], _] => ""
    | parts => ⟨'.' :: parts.getLastD []⟩

/-- JS `s.substring(1)`. -/
def substringFrom1 (s : String) : String :=
  ⟨s.data.drop 1⟩

/-- JS `s.substring(0, s.length - 1)`. -/
def dropLastChar (s : String) : String :=
  ⟨s.data.dropLast⟩

/-- Node `path.basename(p, ext)`: the basename with the suffix `ext`
removed when it is a proper suffix of it. -/
def basenameWithExt (p ext : String) : String :=
  let b := basename p
  if ext ≠ "" ∧ b ≠ ext ∧ (b.data.reverse.take ext.data.length = ext.data.reverse)
  then ⟨(b.data.reverse.drop ext.data.length).reverse⟩
  else b

/-- JS `arr.join('/')`. -/
def joinSlash : List String → String
  | [] => ""
  | [s] => s
  | s :: rest => s ++ "/" ++ joinSlash rest

/-- Node `path.join(dir, name)` restricted to the shapes the plugin uses
(a directory and a bare file name). -/
def pathJoin (dir name : String) : String :=
  if dir = "" then name
  else if dir.data.getLastD ' ' = '/' then dir ++ name
  else dir ++ "/" ++ name

/-- JS truthiness of an optional string: `undefined` and the empty string are falsy. -/
def truthyOpt : Option String → Bool
  | none => false
  | some s => s ≠ ""

/-! ### Data model -/

/-- `GCloudStorageConfig`: `{ bucketName, serviceAccount }`.  The
`serviceAccount` field is optional at the JS level (tests pass configs
without it), hence `Option String`. -/
structure Config where
  bucketName : String
  serviceAccount : Option String
deriving DecidableEq, Repr

/-- The secret store `{ serviceAccount?: string }`. -/
structure Secrets where
  serviceAccount : Option String
deriving DecidableEq, Repr

/-- The masking sentinel written into the config once the secret has been
moved to the secret store. -/
def sentinel : String := "*************************"

/-- `"Service account and bucketName is required for Google Cloud Storage"`. -/
def missingConfigMsg : String :=
  "Service account and bucketName is required for Google Cloud Storage"

/-- `"Invalid bucketName or service account credentials for Google Cloud Storage"`. -/
def invalidCredsMsg : String :=
  "Invalid bucketName or service account credentials for Google Cloud Storage"

/-- `"Service Account is required to access Google Cloud Storage"`. -/
def unauthMsg : String :=
  "Service Account is required to access Google Cloud Storage"

/-- Generic listing failure message. -/
def listFailedMsg : String :=
  "Erreur dans le listage des fichiers / Authentification GCS possiblement incorrecte"

/-- Generic download failure message. -/
def downloadFailedMsg : String :=
  "Erreur dans le téléchargement du fichier / Authentification GCS possiblement incorrecte"

/-! ### Credential Preparer (src/lib/prepare.ts) -/

deriving instance DecidableEq for Except

/-- Result of a `prepare` call.  Because the source mutates the callers
`catalogConfig` and `secrets` objects in place and can then throw, the
outcome carries the final state of both objects alongside the
thrown-or-returned result. -/
structure PrepareOutcome where
  catalogConfig : Config
  secrets : Secrets
  result : Except String Unit
deriving DecidableEq, Repr

/-- The three-branch credential move at the top of `prepare`:
rotate a fresh value into the secret store, or delete the secret on an
explicit empty string, or pass through unchanged. -/
def rotateCredentials (catalogConfig : Config) (secrets : Secrets) :
    Config × Secrets :=
  let serviceAccount := catalogConfig.serviceAccount
  if truthyOpt serviceAccount ∧ serviceAccount ≠ some sentinel then
    ({ catalogConfig with serviceAccount := some sentinel },
     { secrets with serviceAccount := serviceAccount })
  else if truthyOpt secrets.serviceAccount ∧ serviceAccount = some "" then
    (catalogConfig, { secrets with serviceAccount := none })
  else
    (catalogConfig, secrets)

/-- The validation block at the bottom of `prepare`: when a secret and a
bucket name are present, probe the bucket (collapsing any probe failure to
`invalidCredsMsg`), otherwise throw `missingConfigMsg`. -/
def validationGate (probeOk : Bool) (catalogConfig : Config)
    (secrets : Secrets) : PrepareOutcome :=
  if truthyOpt secrets.serviceAccount ∧ catalogConfig.bucketName ≠ "" then
    if probeOk then ⟨catalogConfig, secrets, Except.ok ()⟩
    else ⟨catalogConfig, secrets, Except.error invalidCredsMsg⟩
  else
    ⟨catalogConfig, secrets, Except.error missingConfigMsg⟩

/-- `src/lib/prepare.ts` default export.  `probeOk` is the outcome of the
external try-block (parsing the credential JSON, constructing the client
and requesting one listing page from the bucket): `true` when it does not
throw. -/
def prepare (probeOk : Bool) (catalogConfig : Config) (secrets : Secrets) :
    PrepareOutcome :=
  let (catalogConfig, secrets) := rotateCredentials catalogConfig secrets
  validationGate probeOk catalogConfig secrets

theorem prepare_eq (probeOk : Bool) (catalogConfig : Config)
    (secrets : Secrets) :
    prepare probeOk catalogConfig secrets =
      validationGate probeOk (rotateCredentials catalogConfig secrets).1
        (rotateCredentials catalogConfig secrets).2 := by
  rcases h : rotateCredentials catalogConfig secrets with ⟨c, s⟩
  simp [prepare, h]

theorem rotate_fresh (c : Config) (s : Secrets)
    (h1 : truthyOpt c.serviceAccount = true)
    (h2 : c.serviceAccount ≠ some sentinel) :
    rotateCredentials c s =
      ({ c with serviceAccount := some sentinel },
       { s with serviceAccount := c.serviceAccount }) := by
  simp [rotateCredentials, h1, h2]

theorem rotate_remove (c : Config) (s : Secrets)
    (h1 : ¬(truthyOpt c.serviceAccount ∧ c.serviceAccount ≠ some sentinel))
    (h2 : truthyOpt s.serviceAccount = true)
    (h3 : c.serviceAccount = some "") :
    rotateCredentials c s = (c, { s with serviceAccount := none }) := by
  rw [rotateCredentials]
  rw [if_neg h1, if_pos ⟨by simpa using h2, by simpa using h3⟩]

theorem rotate_noop (c : Config) (s : Secrets)
    (h1 : ¬(truthyOpt c.serviceAccount ∧ c.serviceAccount ≠ some sentinel))
    (h2 : ¬(truthyOpt s.serviceAccount ∧ c.serviceAccount = some "")) :
    rotateCredentials c s = (c, s) := by
  rw [rotateCredentials]
  rw [if_neg h1, if_neg h2]

theorem gate_config (p : Bool) (c : Config) (s : Secrets) :
    (validationGate p c s).catalogConfig = c := by
  rw [validationGate]
  split
  · split <;> rfl
  · rfl

theorem gate_secrets (p : Bool) (c : Config) (s : Secrets) :
    (validationGate p c s).secrets = s := by
  rw [validationGate]
  split
  · split <;> rfl
  · rfl

theorem gate_missing (p : Bool) (c : Config) (s : Secrets)
    (h : ¬(truthyOpt s.serviceAccount ∧ c.bucketName ≠ "")) :
    validationGate p c s = ⟨c, s, Except.error missingConfigMsg⟩ := by
  rw [validationGate, if_neg h]

theorem gate_pass (c : Config) (s : Secrets)
    (h1 : truthyOpt s.serviceAccount = true) (h2 : c.bucketName ≠ "") :
    validationGate true c s = ⟨c, s, Except.ok ()⟩ := by
  rw [validationGate, if_pos ⟨by simpa using h1, h2⟩, if_pos rfl]

theorem gate_result_ok (p : Bool) (c : Config) (s : Secrets)
    (h : (validationGate p c s).result = Except.ok ()) :
    truthyOpt s.serviceAccount = true := by
  by_cases hc : truthyOpt s.serviceAccount ∧ c.bucketName ≠ ""
  · simpa using hc.1
  · rw [gate_missing p c s hc] at h
    exact absurd h (by simp)

/-! ### Resource Lister (listResources in src/lib/imports.ts) -/

/-- The metadata the listing copies from each storage object. -/
structure FileMeta where
  size : Nat
  contentType : String
deriving DecidableEq, Repr

/-- One object returned by the storage `getFiles` call. -/
structure GFile where
  name : String
  metadata : FileMeta
deriving DecidableEq, Repr

/-- The relevant fields of the third element of the `getFiles` response
(`response.prefixes`, defaulted to `[]` by the source when absent). -/
structure GetFilesResponse where
  prefixes : List String
deriving DecidableEq, Repr

/-- The `GetFilesOptions` record built by `listResources` and passed to the
backend (`prefix` is a Lean keyword, so the field is named `pfx`). -/
structure GetFilesOptions where
  autoPaginate : Bool
  pfx : String
  matchGlob : Option String
  delimiter : String
  includeTrailingDelimiter : Bool
deriving DecidableEq, Repr

/-- `{ currentFolderId?, q? }`. -/
structure ListParams where
  currentFolderId : Option String
  q : Option String
deriving DecidableEq, Repr

/-- A listing result entry: a file (type resource) or a folder. -/
inductive ResourceEntry
  | resource (id title : String) (size : Nat) (format mimeType : String)
  | folder (id title : String)
deriving DecidableEq, Repr

/-- A breadcrumb entry (type folder). -/
structure Folder where
  id : String
  title : String
deriving DecidableEq, Repr

/-- `{ count, results, path }`. -/
structure ListResult where
  count : Nat
  results : List ResourceEntry
  path : List Folder
deriving DecidableEq, Repr

/-- External effects of `listResources`: the `new Storage(...)`
construction (which throws inside the try-block when the credential JSON
is invalid) and the `getFiles` call, as a function of the options actually
passed (together with the object list of its response). -/
structure ListDeps where
  newStorage : Except String Unit
  getFiles : GetFilesOptions → Except String (List GFile × GetFilesResponse)

/-- The options record built by `listResources` from the normalized
`currentFolderId` and the raw `params.q`. -/
def listOptions (currentFolderId : String) (q : Option String) : GetFilesOptions :=
  let glob : Option String :=
    match q with
    | some qs => if qs ≠ "" then some (currentFolderId ++ "*" ++ qs ++ "**") else none
    | none => none
  { autoPaginate := true
    pfx := currentFolderId
    matchGlob := glob
    delimiter := "/"
    includeTrailingDelimiter := false }

/-- The `resource` entry built from one storage object. -/
def fileEntry (f : GFile) : ResourceEntry :=
  ResourceEntry.resource f.name (basename f.name) f.metadata.size
    (substringFrom1 (extname f.name)) f.metadata.contentType

/-- The `folder` entry built from one common prefix. -/
def folderEntry (p : String) : ResourceEntry :=
  let dosName := dropLastChar p
  ResourceEntry.folder p (afterLastSlash dosName)

/-- The breadcrumb computed from the normalized `currentFolderId`. -/
def breadcrumb (currentFolderId : String) : List Folder :=
  let foldersPath := (splitOnChar '/' currentFolderId.data).map (fun l => (⟨l⟩ : String))
  let foldersPath := foldersPath.filter (fun fold => fold ≠ "")
  (List.range foldersPath.length).map (fun idx =>
    { id := joinSlash (foldersPath.take (idx + 1)) ++ "/"
      title := foldersPath.getD idx "" })

/-- `listResources` from src/lib/imports.ts.  Because the source mutates
`params` in place (normalizing `currentFolderId`), the outcome carries the
final state of `params` alongside the returned-or-thrown result. -/
def listResources (catalogConfig : Config) (secrets : Secrets)
    (params : ListParams) (deps : ListDeps) :
    Except String ListResult × ListParams :=
  if truthyOpt secrets.serviceAccount then
    match deps.newStorage with
    | Except.error _ => (Except.error listFailedMsg, params)
    | Except.ok _ =>
      let currentFolderId := params.currentFolderId.getD ""
      let params := { params with currentFolderId := some currentFolderId }
      match deps.getFiles (listOptions currentFolderId params.q) with
      | Except.error _ => (Except.error listFailedMsg, params)
      | Except.ok (files, response) =>
        let resFiles :=
          (files.filter (fun file => file.name ≠ currentFolderId)).map fileEntry
        let foldersFromPrefixes :=
          (response.prefixes.filter (fun p => p ≠ "/")).map folderEntry
        (Except.ok
          { count := resFiles.length + foldersFromPrefixes.length
            results := resFiles ++ foldersFromPrefixes
            path := breadcrumb currentFolderId },
         params)
  else
    (Except.error unauthMsg, params)

/-! ### Resource Fetcher (getResource in src/lib/imports.ts) -/

/-- The resource record resolved on download completion. -/
structure Resource where
  id : String
  title : String
  filePath : String
  format : String
deriving DecidableEq, Repr

/-- External effects of `getResource`: client construction, the
`getMetadata` call, and the outcome of the download stream (`error` event
versus `finish`).  Everything up to and including `getMetadata` happens
inside the try/catch; the stream outcome settles the Promise that the
function has already returned, outside the try/catch. -/
structure FetchDeps where
  newStorage : Except String Unit
  getMetadata : Except String FileMeta
  streamOutcome : Except String Unit

/-- `getResource` from src/lib/imports.ts.  A failure of client
construction or of the metadata fetch is caught by the try/catch and
collapsed to `downloadFailedMsg`; a stream `error` event rejects the
already-returned Promise with the underlying error, which the try/catch
does not see. -/
def getResource (catalogConfig : Config) (secrets : Secrets)
    (resourceId tmpDir : String) (deps : FetchDeps) :
    Except String Resource :=
  if truthyOpt secrets.serviceAccount then
    match deps.newStorage with
    | Except.error _ => Except.error downloadFailedMsg
    | Except.ok _ =>
      let fileName := afterLastSlash resourceId
      let filePath := pathJoin tmpDir fileName
      match deps.getMetadata with
      | Except.error _ => Except.error downloadFailedMsg
      | Except.ok _metadata =>
        match deps.streamOutcome with
        | Except.error e => Except.error e
        | Except.ok _ =>
          Except.ok
            { id := resourceId
              title := basenameWithExt fileName (extname fileName)
              filePath := filePath
              format := substringFrom1 (extname fileName) }
  else
    Except.error unauthMsg

/-! ### Theorems about the Credential Preparer -/

/-- C2: when `secrets.serviceAccount` holds a (truthy) value and
`config.serviceAccount` is the empty string, `prepare` deletes the secret
and then fails with the MissingConfiguration message; after the failed
call the secret is absent from the secret store. -/
theorem C2_explicit_removal (probeOk : Bool) (cfg : Config) (sec : Secrets)
    (v : String) (hcfg : cfg.serviceAccount = some "")
    (hsec : sec.serviceAccount = some v) (hv : v ≠ "") :
    (prepare probeOk cfg sec).secrets.serviceAccount = none ∧
    (prepare probeOk cfg sec).result = Except.error missingConfigMsg := by
  have h1 : ¬(truthyOpt cfg.serviceAccount ∧ cfg.serviceAccount ≠ some sentinel) := by
    simp [hcfg, truthyOpt]
  have hr : rotateCredentials cfg sec = (cfg, { sec with serviceAccount := none }) :=
    rotate_remove cfg sec h1 (by simp [truthyOpt, hsec, hv]) hcfg
  have hg : prepare probeOk cfg sec =
      ⟨cfg, { sec with serviceAccount := none }, Except.error missingConfigMsg⟩ := by
    rw [prepare_eq, hr]
    exact gate_missing probeOk cfg { sec with serviceAccount := none }
      (by simp [truthyOpt])
  rw [hg]
  exact ⟨rfl, rfl⟩

/-- Closed instance of C2_explicit_removal. -/
theorem C2_explicit_removal_witness :
    (prepare true { bucketName := "test-bucket", serviceAccount := some "" }
        { serviceAccount := some "svc-account" }).secrets.serviceAccount = none ∧
    (prepare true { bucketName := "test-bucket", serviceAccount := some "" }
        { serviceAccount := some "svc-account" }).result =
      Except.error missingConfigMsg :=
  C2_explicit_removal true
    { bucketName := "test-bucket", serviceAccount := some "" }
    { serviceAccount := some "svc-account" } "svc-account" rfl rfl (by decide)

/-- C9: `prepare` is not atomic on failure: with a fresh non-empty
non-sentinel `config.serviceAccount` value V and an empty `bucketName`,
the call fails with the MissingConfiguration message while the rotation
has already been applied to the caller objects (`secrets.serviceAccount`
is V, `config.serviceAccount` is the sentinel). -/
theorem C9_non_atomic_rotation (probeOk : Bool) (cfg : Config) (sec : Secrets)
    (v : String) (hcfg : cfg.serviceAccount = some v) (hv : v ≠ "")
    (hvs : v ≠ sentinel) (hbn : cfg.bucketName = "") :
    (prepare probeOk cfg sec).result = Except.error missingConfigMsg ∧
    (prepare probeOk cfg sec).secrets.serviceAccount = some v ∧
    (prepare probeOk cfg sec).catalogConfig.serviceAccount = some sentinel := by
  have h1t : truthyOpt cfg.serviceAccount = true := by
    simp [truthyOpt, hcfg, hv]
  have h2t : cfg.serviceAccount ≠ some sentinel := by
    simp [hcfg, hvs]
  have hg : prepare probeOk cfg sec =
      ⟨{ cfg with serviceAccount := some sentinel },
       { sec with serviceAccount := cfg.serviceAccount },
       Except.error missingConfigMsg⟩ := by
    rw [prepare_eq, rotate_fresh cfg sec h1t h2t]
    exact gate_missing _ _ _ (by simp [hbn])
  rw [hg]
  exact ⟨rfl, by simp [hcfg], rfl⟩

/-- Closed instance of C9_non_atomic_rotation. -/
theorem C9_non_atomic_rotation_witness :
    (prepare true { bucketName := "", serviceAccount := some "svc-account" }
        { serviceAccount := none }).result = Except.error missingConfigMsg ∧
    (prepare true { bucketName := "", serviceAccount := some "svc-account" }
        { serviceAccount := none }).secrets.serviceAccount = some "svc-account" ∧
    (prepare true { bucketName := "", serviceAccount := some "svc-account" }
        { serviceAccount := none }).catalogConfig.serviceAccount = some sentinel :=
  C9_non_atomic_rotation true
    { bucketName := "", serviceAccount := some "svc-account" }
    { serviceAccount := none } "svc-account" rfl (by decide) (by decide) rfl

/-- C7: with `config.serviceAccount` already equal to the sentinel, a
populated secret store, a non-empty bucket name and a succeeding probe,
`prepare` is a no-op on the credential state: the outcome returns the
input config and secrets unchanged, and applying `prepare` again to the
outcome yields the same outcome. -/
theorem C7_masking_idempotent (cfg : Config) (sec : Secrets)
    (hcfg : cfg.serviceAccount = some sentinel)
    (hsec : truthyOpt sec.serviceAccount = true)
    (hbn : cfg.bucketName ≠ "") :
    prepare true cfg sec = ⟨cfg, sec, Except.ok ()⟩ ∧
    prepare true (prepare true cfg sec).catalogConfig
        (prepare true cfg sec).secrets = prepare true cfg sec := by
  have h1 : ¬(truthyOpt cfg.serviceAccount ∧ cfg.serviceAccount ≠ some sentinel) := by
    simp [hcfg]
  have h2 : ¬(truthyOpt sec.serviceAccount ∧ cfg.serviceAccount = some "") := by
    rw [hcfg]
    simp [sentinel]
  have hfirst : prepare true cfg sec = ⟨cfg, sec, Except.ok ()⟩ := by
    rw [prepare_eq, rotate_noop cfg sec h1 h2]
    exact gate_pass cfg sec hsec hbn
  exact ⟨hfirst, by rw [hfirst]; exact hfirst⟩

/-- Closed instance of C7_masking_idempotent. -/
theorem C7_masking_idempotent_witness :
    prepare true { bucketName := "test-bucket", serviceAccount := some sentinel }
        { serviceAccount := some "svc-account" } =
      ⟨{ bucketName := "test-bucket", serviceAccount := some sentinel },
        { serviceAccount := some "svc-account" }, Except.ok ()⟩ ∧
    prepare true
        (prepare true { bucketName := "test-bucket", serviceAccount := some sentinel }
          { serviceAccount := some "svc-account" }).catalogConfig
        (prepare true { bucketName := "test-bucket", serviceAccount := some sentinel }
          { serviceAccount := some "svc-account" }).secrets =
      prepare true { bucketName := "test-bucket", serviceAccount := some sentinel }
        { serviceAccount := some "svc-account" } :=
  C7_masking_idempotent
    { bucketName := "test-bucket", serviceAccount := some sentinel }
    { serviceAccount := some "svc-account" } rfl (by decide) (by decide)

/-- C3: with a fresh non-empty non-sentinel `config.serviceAccount` value
V, a non-empty bucket name and a succeeding probe, `prepare` succeeds with
`config.serviceAccount` equal to the sentinel and `secrets.serviceAccount`
equal to V; and on every successful `prepare` call whatsoever, the final
`config.serviceAccount` is either the sentinel or absent. -/
theorem C3_secret_rotation_and_masking :
    (∀ (cfg : Config) (sec : Secrets) (v : String),
      cfg.serviceAccount = some v → v ≠ "" → v ≠ sentinel →
      cfg.bucketName ≠ "" →
      (prepare true cfg sec).result = Except.ok () ∧
      (prepare true cfg sec).catalogConfig.serviceAccount = some sentinel ∧
      (prepare true cfg sec).secrets.serviceAccount = some v) ∧
    (∀ (probeOk : Bool) (cfg : Config) (sec : Secrets),
      (prepare probeOk cfg sec).result = Except.ok () →
      (prepare probeOk cfg sec).catalogConfig.serviceAccount = some sentinel ∨
      (prepare probeOk cfg sec).catalogConfig.serviceAccount = none) := by
  constructor
  · intro cfg sec v hcfg hv hvs hbn
    have h1t : truthyOpt cfg.serviceAccount = true := by
      simp [truthyOpt, hcfg, hv]
    have h2t : cfg.serviceAccount ≠ some sentinel := by
      simp [hcfg, hvs]
    have hp : prepare true cfg sec =
        ⟨{ cfg with serviceAccount := some sentinel },
         { sec with serviceAccount := cfg.serviceAccount }, Except.ok ()⟩ := by
      rw [prepare_eq, rotate_fresh cfg sec h1t h2t]
      exact gate_pass _ _ (by simp [truthyOpt, hcfg, hv]) (by simpa using hbn)
    rw [hp]
    exact ⟨rfl, rfl, by simp [hcfg]⟩
  · intro probeOk cfg sec h
    by_cases h1 : truthyOpt cfg.serviceAccount ∧ cfg.serviceAccount ≠ some sentinel
    · left
      rw [prepare_eq, rotate_fresh cfg sec h1.1 h1.2, gate_config]
    · by_cases h2 : truthyOpt sec.serviceAccount ∧ cfg.serviceAccount = some ""
      · exfalso
        rw [prepare_eq, rotate_remove cfg sec h1 h2.1 h2.2] at h
        have hok := gate_result_ok _ _ _ h
        simp [truthyOpt] at hok
      · rw [prepare_eq, rotate_noop cfg sec h1 h2] at h ⊢
        rw [gate_config]
        have hst : truthyOpt sec.serviceAccount = true := gate_result_ok _ _ _ h
        rcases hsa : cfg.serviceAccount with _ | s'
        · right
          rfl
        · left
          by_cases hse : s' = ""
          · exact absurd ⟨hst, by rw [hsa, hse]⟩ h2
          · have hcs : ¬(cfg.serviceAccount ≠ some sentinel) := fun hne =>
              h1 ⟨by simp [truthyOpt, hsa, hse], hne⟩
            rw [hsa] at hcs
            exact not_not.mp hcs

/-- Closed instance of C3_secret_rotation_and_masking. -/
theorem C3_secret_rotation_and_masking_witness :
    (prepare true { bucketName := "test-bucket", serviceAccount := some "svc-account" }
        { serviceAccount := none }).result = Except.ok () ∧
    (prepare true { bucketName := "test-bucket", serviceAccount := some "svc-account" }
        { serviceAccount := none }).catalogConfig.serviceAccount = some sentinel ∧
    (prepare true { bucketName := "test-bucket", serviceAccount := some "svc-account" }
        { serviceAccount := none }).secrets.serviceAccount = some "svc-account" :=
  C3_secret_rotation_and_masking.1
    { bucketName := "test-bucket", serviceAccount := some "svc-account" }
    { serviceAccount := none } "svc-account" rfl (by decide) (by decide) (by decide)

/-! ### Theorems about the Resource Lister and Fetcher -/

theorem listResources_getFilesError (cfg : Config) (sec : Secrets)
    (params : ListParams) (deps : ListDeps) (e : String)
    (hsec : truthyOpt sec.serviceAccount = true)
    (hns : deps.newStorage = Except.ok ())
    (hgf : deps.getFiles
        (listOptions (params.currentFolderId.getD "") params.q) =
      Except.error e) :
    listResources cfg sec params deps =
      (Except.error listFailedMsg,
       { params with currentFolderId := some (params.currentFolderId.getD "") }) := by
  obtain ⟨pcf, pq⟩ := params
  simp [listResources, hsec, hns, hgf]

theorem listResources_ok (cfg : Config) (sec : Secrets)
    (params : ListParams) (deps : ListDeps) (files : List GFile)
    (response : GetFilesResponse)
    (hsec : truthyOpt sec.serviceAccount = true)
    (hns : deps.newStorage = Except.ok ())
    (hgf : deps.getFiles
        (listOptions (params.currentFolderId.getD "") params.q) =
      Except.ok (files, response)) :
    listResources cfg sec params deps =
      (Except.ok
        { count :=
            ((files.filter (fun file =>
                file.name ≠ params.currentFolderId.getD "")).map fileEntry).length +
            ((response.prefixes.filter (fun p => p ≠ "/")).map folderEntry).length
          results :=
            (files.filter (fun file =>
                file.name ≠ params.currentFolderId.getD "")).map fileEntry ++
            (response.prefixes.filter (fun p => p ≠ "/")).map folderEntry
          path := breadcrumb (params.currentFolderId.getD "") },
       { params with currentFolderId := some (params.currentFolderId.getD "") }) := by
  obtain ⟨pcf, pq⟩ := params
  simp [listResources, hsec, hns, hgf]

/-- C5: with an absent `serviceAccount` secret, both `listResources` and
`getResource` fail immediately with the Unauthenticated message, whatever
the external dependencies are (so no storage client is constructed and no
backend call is made), and `params` is left untouched. -/
theorem C5_auth_precondition (cfg : Config) (params : ListParams)
    (deps : ListDeps) (fdeps : FetchDeps) (resourceId tmpDir : String) :
    (listResources cfg { serviceAccount := none } params deps).1 =
      Except.error unauthMsg ∧
    (listResources cfg { serviceAccount := none } params deps).2 = params ∧
    getResource cfg { serviceAccount := none } resourceId tmpDir fdeps =
      Except.error unauthMsg := by
  refine ⟨?_, ?_, ?_⟩ <;> simp [listResources, getResource, truthyOpt]

/-- C4: a successful listing is partitioned into the resource entries
derived from the returned objects (`fileEntry`: id the full key, title the
basename, format the extension after the last dot, size and mime type
copied from the metadata; the object equal to the current folder id is
excluded) followed by the folder entries derived from the returned common
prefixes (`folderEntry`, excluding the synthetic root prefix), and count
is the number of resource entries plus the number of folder entries. -/
theorem C4_listing_partition (cfg : Config) (sec : Secrets)
    (params : ListParams) (deps : ListDeps) (files : List GFile)
    (response : GetFilesResponse)
    (hsec : truthyOpt sec.serviceAccount = true)
    (hns : deps.newStorage = Except.ok ())
    (hgf : deps.getFiles
        (listOptions (params.currentFolderId.getD "") params.q) =
      Except.ok (files, response)) :
    (listResources cfg sec params deps).1 =
      Except.ok
        { count :=
            ((files.filter (fun file =>
                file.name ≠ params.currentFolderId.getD "")).map fileEntry).length +
            ((response.prefixes.filter (fun p => p ≠ "/")).map folderEntry).length
          results :=
            (files.filter (fun file =>
                file.name ≠ params.currentFolderId.getD "")).map fileEntry ++
            (response.prefixes.filter (fun p => p ≠ "/")).map folderEntry
          path := breadcrumb (params.currentFolderId.getD "") } := by
  rw [listResources_ok cfg sec params deps files response hsec hns hgf]

/-- Closed instance of C4_listing_partition: the root listing of the spec
example yields exactly the two resource entries followed by the two folder
entries, with count 4 and an empty breadcrumb. -/
theorem C4_listing_partition_witness :
    (listResources { bucketName := "test-bucket", serviceAccount := none }
        { serviceAccount := some "svc-account" }
        { currentFolderId := none, q := none }
        { newStorage := Except.ok ()
          getFiles := fun _ => Except.ok
            ([ { name := "file1.csv",
                 metadata := { size := 1000, contentType := "text/csv" } },
               { name := "file2.txt",
                 metadata := { size := 2000, contentType := "plain/text" } } ],
             { prefixes := ["/", "folder1/", "folder2/"] }) }).1 =
      Except.ok
        { count := 4
          results :=
            [ResourceEntry.resource "file1.csv" "file1.csv" 1000 "csv" "text/csv",
             ResourceEntry.resource "file2.txt" "file2.txt" 2000 "txt" "plain/text",
             ResourceEntry.folder "folder1/" "folder1",
             ResourceEntry.folder "folder2/" "folder2"]
          path := [] } :=
  (C4_listing_partition _ _ _ _ _ _ (by decide) rfl rfl).trans (by decide)

/-- C6: when a non-empty query q is supplied, the glob filter passed to
the backend is exactly the current folder id, one asterisk, q, then two
asterisks, and no glob filter is passed when q is absent; moreover the
backend is only consulted at exactly these options (two dependency
environments agreeing there give identical results). -/
theorem C6_glob_construction (currentFolderId s : String) (cfg : Config)
    (sec : Secrets) (params : ListParams) (deps deps' : ListDeps) :
    (s ≠ "" →
      (listOptions currentFolderId (some s)).matchGlob =
        some (currentFolderId ++ "*" ++ s ++ "**")) ∧
    (listOptions currentFolderId none).matchGlob = none ∧
    (truthyOpt sec.serviceAccount = true →
      deps.newStorage = deps'.newStorage →
      deps.getFiles (listOptions (params.currentFolderId.getD "") params.q) =
        deps'.getFiles (listOptions (params.currentFolderId.getD "") params.q) →
      listResources cfg sec params deps = listResources cfg sec params deps') := by
  refine ⟨fun hs => by simp [listOptions, hs], by simp [listOptions], ?_⟩
  intro hsec hns hgf
  rcases hns' : deps'.newStorage with e | u
  · rw [hns'] at hns
    obtain ⟨pcf, pq⟩ := params
    simp [listResources, hsec, hns, hns']
  · cases u
    rw [hns'] at hns
    rcases hgf' : deps'.getFiles
        (listOptions (params.currentFolderId.getD "") params.q) with e | fr
    · rw [hgf'] at hgf
      rw [listResources_getFilesError cfg sec params deps e hsec hns hgf,
        listResources_getFilesError cfg sec params deps' e hsec hns' hgf']
    · rcases fr with ⟨files, response⟩
      rw [hgf'] at hgf
      rw [listResources_ok cfg sec params deps files response hsec hns hgf,
        listResources_ok cfg sec params deps' files response hsec hns' hgf']

/-- Closed instance of C6_glob_construction. -/
theorem C6_glob_construction_witness :
    (listOptions "folder1/" (some "que")).matchGlob = some "folder1/*que**" ∧
    (listOptions "folder1/" none).matchGlob = none :=
  ⟨((C6_glob_construction "folder1/" "que" ⟨"b", none⟩ ⟨none⟩ ⟨none, none⟩
      ⟨Except.ok (), fun _ => Except.error "x"⟩
      ⟨Except.ok (), fun _ => Except.error "x"⟩).1 (by decide)).trans (by decide),
   (C6_glob_construction "folder1/" "que" ⟨"b", none⟩ ⟨none⟩ ⟨none, none⟩
      ⟨Except.ok (), fun _ => Except.error "x"⟩
      ⟨Except.ok (), fun _ => Except.error "x"⟩).2.1⟩

/-- C8: every successful listing carries the breadcrumb computed from the
normalized current folder id by splitting on the slash, dropping empty
segments and emitting one folder entry per ancestor level with cumulative
slash-terminated id; `currentFolderId = "folder1/"` gives the single entry
with id `"folder1/"` and title `"folder1"`, and an absent
`currentFolderId` gives an empty breadcrumb. -/
theorem C8_breadcrumb (cfg : Config) (sec : Secrets) (params : ListParams)
    (deps : ListDeps) (r : ListResult)
    (h : (listResources cfg sec params deps).1 = Except.ok r) :
    r.path = breadcrumb (params.currentFolderId.getD "") ∧
    breadcrumb "folder1/" = [{ id := "folder1/", title := "folder1" }] ∧
    (params.currentFolderId = none → r.path = []) := by
  have hpath : r.path = breadcrumb (params.currentFolderId.getD "") := by
    by_cases hsec : truthyOpt sec.serviceAccount
    · rcases hns : deps.newStorage with e | u
      · rw [listResources, if_pos hsec, hns] at h
        exact absurd h (by simp)
      · cases u
        rcases hgf : deps.getFiles
            (listOptions (params.currentFolderId.getD "") params.q) with e | fr
        · rw [listResources_getFilesError cfg sec params deps e hsec hns hgf] at h
          exact absurd h (by simp)
        · rcases fr with ⟨files, response⟩
          rw [listResources_ok cfg sec params deps files response hsec hns hgf] at h
          simp only at h
          rw [← Except.ok.inj h]
    · rw [listResources, if_neg hsec] at h
      exact absurd h (by simp)
  refine ⟨hpath, by decide, fun hnone => ?_⟩
  rw [hpath, hnone]
  decide

/-- Closed instance of C8_breadcrumb. -/
theorem C8_breadcrumb_witness :
    ListResult.path
        { count := 0, results := [], path := [{ id := "folder1/", title := "folder1" }] } =
      breadcrumb ((some "folder1/" : Option String).getD "") ∧
    breadcrumb "folder1/" = [{ id := "folder1/", title := "folder1" }] ∧
    ((some "folder1/" : Option String) = none →
      ListResult.path
        { count := 0, results := [],
          path := [{ id := "folder1/", title := "folder1" }] } = []) :=
  C8_breadcrumb { bucketName := "test-bucket", serviceAccount := none }
    { serviceAccount := some "svc-account" }
    { currentFolderId := some "folder1/", q := none }
    { newStorage := Except.ok ()
      getFiles := fun _ => Except.ok ([], { prefixes := [] }) }
    { count := 0, results := [], path := [{ id := "folder1/", title := "folder1" }] }
    (by decide)

/-- C10 as stated is refuted: here is a call with `params.currentFolderId`
absent after which the field is still absent, not the empty string (the
authentication check throws before the normalization runs). -/
theorem C10_counterexample :
    (listResources { bucketName := "test-bucket", serviceAccount := none }
        { serviceAccount := none } { currentFolderId := none, q := none }
        { newStorage := Except.ok ()
          getFiles := fun _ => Except.error "network failure" }).2.currentFolderId
      = none ∧ (none : Option String) ≠ some "" :=
  ⟨rfl, by decide⟩

/-- C10 amended: on every call that passes the authentication check and
whose storage-client construction succeeds, `listResources` sets
`params.currentFolderId` to the normalized value (the empty string when it
was absent) and leaves `params.q` unchanged; when the secret is absent,
`params` is returned untouched. -/
theorem C10_params_mutation_amended (cfg : Config) (sec : Secrets)
    (params : ListParams) (deps : ListDeps)
    (hsec : truthyOpt sec.serviceAccount = true)
    (hns : deps.newStorage = Except.ok ()) :
    (listResources cfg sec params deps).2 =
      { params with currentFolderId := some (params.currentFolderId.getD "") } ∧
    (params.currentFolderId = none →
      (listResources cfg sec params deps).2.currentFolderId = some "" ∧
      (listResources cfg sec params deps).2.q = params.q) ∧
    (∀ (cfg' : Config) (params' : ListParams) (deps' : ListDeps),
      (listResources cfg' { serviceAccount := none } params' deps').2 = params') := by
  have h2 : (listResources cfg sec params deps).2 =
      { params with currentFolderId := some (params.currentFolderId.getD "") } := by
    rcases hgf : deps.getFiles
        (listOptions (params.currentFolderId.getD "") params.q) with e | fr
    · rw [listResources_getFilesError cfg sec params deps e hsec hns hgf]
    · rcases fr with ⟨files, response⟩
      rw [listResources_ok cfg sec params deps files response hsec hns hgf]
  refine ⟨h2, fun hnone => ?_, ?_⟩
  · rw [h2, hnone]
    exact ⟨rfl, rfl⟩
  · intro cfg' params' deps'
    simp [listResources, truthyOpt]

/-- Closed instance of C10_params_mutation_amended. -/
theorem C10_params_mutation_amended_witness :
    (listResources { bucketName := "test-bucket", serviceAccount := none }
        { serviceAccount := some "svc-account" }
        { currentFolderId := none, q := none }
        { newStorage := Except.ok ()
          getFiles := fun _ => Except.error "network failure" }).2 =
      { currentFolderId := some "", q := none } :=
  ((C10_params_mutation_amended _ _ _ _ (by decide) rfl).1).trans (by decide)

/-- C1 as stated is refuted: an error raised by the download stream
surfaces to the caller verbatim, not as the generic download-failure
message, because the stream settles a Promise that the try/catch has
already returned. -/
theorem C1_counterexample :
    getResource { bucketName := "test-bucket", serviceAccount := some "" }
        { serviceAccount := some "svc-account" } "folder1/file1.csv" "/tmp"
        { newStorage := Except.ok ()
          getMetadata := Except.ok { size := 1000, contentType := "text/csv" }
          streamOutcome := Except.error "Invalid stream" } =
      Except.error "Invalid stream" ∧
    "Invalid stream" ≠ downloadFailedMsg :=
  ⟨rfl, by decide⟩

/-- C1 amended: with a present secret, a failure of the storage-client
construction or of the metadata fetch is collapsed to the generic
download-failure message, while an error event on the content stream
surfaces the underlying error itself to the caller. -/
theorem C1_error_collapse_amended (cfg : Config) (sec : Secrets)
    (resourceId tmpDir : String) (deps : FetchDeps)
    (hsec : truthyOpt sec.serviceAccount = true) :
    (∀ e, deps.newStorage = Except.error e →
      getResource cfg sec resourceId tmpDir deps =
        Except.error downloadFailedMsg) ∧
    (∀ e, deps.newStorage = Except.ok () → deps.getMetadata = Except.error e →
      getResource cfg sec resourceId tmpDir deps =
        Except.error downloadFailedMsg) ∧
    (∀ m e, deps.newStorage = Except.ok () → deps.getMetadata = Except.ok m →
      deps.streamOutcome = Except.error e →
      getResource cfg sec resourceId tmpDir deps = Except.error e) := by
  refine ⟨?_, ?_, ?_⟩
  · intro e hns
    simp [getResource, hsec, hns]
  · intro e hns hm
    simp [getResource, hsec, hns, hm]
  · intro m e hns hm hs
    simp [getResource, hsec, hns, hm, hs]

/-- Closed instance of C1_error_collapse_amended: a failing metadata fetch
is reported with the generic message. -/
theorem C1_error_collapse_amended_witness :
    getResource { bucketName := "test-bucket", serviceAccount := some "" }
        { serviceAccount := some "svc-account" } "folder1/nonexistent.csv" "/tmp"
        { newStorage := Except.ok ()
          getMetadata := Except.error "File not found"
          streamOutcome := Except.ok () } =
      Except.error downloadFailedMsg :=
  (C1_error_collapse_amended _ _ _ _ _ (by decide)).2.1 "File not found" rfl rfl

end GCloudStorage
